import Mathlib

/-!
# Verification of the pull-through proxy registry core

Shallow embedding of `src/registry/proxy/proxyregistry.go` (package `proxy`
of metaplay/distribution).  The embedding models:

* `extractRemoteURL` — per-request origin resolution (namespace mode);
* the name/origin resolution and composition part of
  `proxyingRegistry.Repository`;
* the two eviction callbacks registered in `NewRegistryPullThroughCache`
  (`OnBlobExpire` / `OnManifestExpire`), parameterised by the behaviour of
  the external storage backend and vacuum helper;
* `remoteAuthChallenger.tryEstablishChallenges`, parameterised by the
  behaviour of the external `ping` probe;
* the accessor methods of `proxiedRepository`.

External collaborators that are not part of this repository's source file
(the storage backend, the remote client, the scheduler, `ping`,
`reference.WithName`) are modelled as explicit parameters, following the
spec's description of their contracts.
-/

namespace ProxyRegistry

/-- Go `strings.Cut(s, sep)` on a character list: split at the first
occurrence of `sep`, returning the part before and after when found. -/
def cutList (sep : Char) : List Char → Option (List Char × List Char)
  | [] => none
  | c :: cs =>
    if c = sep then some ([], cs)
    else
      match cutList sep cs with
      | some (l, r) => some (c :: l, r)
      | none => none

/-- Go `strings.Cut(s, sep)` for a one-character separator:
`(before, after, found)`; when `sep` does not occur, `(s, "", false)`. -/
def stringCut (s : String) (sep : Char) : String × String × Bool :=
  match cutList sep s.toList with
  | some (l, r) => (String.mk l, String.mk r, true)
  | none => (s, "", false)

/-- Index of the first occurrence of `c`, if any. -/
def indexRuneList (c : Char) : List Char → Option Nat
  | [] => none
  | x :: xs => if x = c then some 0 else (indexRuneList c xs).map (· + 1)

/-- Go `strings.IndexRune(s, c)`: the index of the first occurrence of `c`
in `s`, or `-1` when `c` does not occur. -/
def indexRune (s : String) (c : Char) : Int :=
  match indexRuneList c s.toList with
  | none => -1
  | some i => (i : Int)

/-- Go `url.URL`, restricted to the fields this file uses. -/
structure URL where
  scheme : String
  host : String
  path : String
deriving Repr, DecidableEq

/-- The errors the modelled operations can produce.
`invalidNamespace` is the `errors.New("ns parameter is missing and image is
not prefixed with domain")` value of `extractRemoteURL`; `nameParse` stands
for a `reference.WithName` parse failure; `noRequest` for
`dcontext.GetRequest` failing because the context carries no HTTP request;
`transport` for an error surfaced by the `ping` probe. -/
inductive PErr where
  | noRequest
  | invalidNamespace
  | nameParse
  | transport (msg : String)
deriving Repr, DecidableEq

/-- The part of the inbound HTTP request that `extractRemoteURL` reads:
`r.URL.Query().Get("ns")`, which is `""` when the parameter is absent. -/
structure Request where
  nsQuery : String
deriving Repr, DecidableEq

/-- The request context: the optional HTTP request (`dcontext.GetRequest`)
and the path-extracted repository name
(`dcontext.GetStringValue(ctx, "vars.name")`). -/
structure Ctx where
  request : Option Request
  varsName : String
deriving Repr, DecidableEq

/-- Modelled from the spec: `reference.WithName` is code of this repository
that is not under `src/`; the spec only says that malformed repository
names fail with a `NameParseError`.  We model the parser as an abstract
validity predicate `validName` on strings — `WithName` succeeds (returning
a `Named` whose `Name()` is the input string unchanged) exactly when the
predicate holds. -/
def withName (validName : String → Bool) (s : String) : Except PErr String :=
  if validName s then .ok s else .error .nameParse

/-- `extractRemoteURL(ctx)` (src/registry/proxy/proxyregistry.go:313-343):
read the `ns` query parameter and `vars.name` from the request context;
when `ns` is empty, split the name on its first `/` and require the first
segment to contain a `.` at index ≥ 1; parse the remaining name with
`reference.WithName`; return `https://<ns>` and the parsed name. -/
def extractRemoteURL (validName : String → Bool) (ctx : Ctx) :
    Except PErr (URL × String) :=
  match ctx.request with
  | none => .error .noRequest
  | some r =>
    let ns := r.nsQuery
    let name := ctx.varsName
    let step : Except PErr (String × String) :=
      if ns = "" then
        match stringCut name '/' with
        | (ns2, name2, found) =>
          if !found || indexRune ns2 '.' < 1 then
            .error .invalidNamespace
          else
            .ok (ns2, name2)
      else
        .ok (ns, name)
    match step with
    | .error e => .error e
    | .ok (ns2, name2) =>
      match withName validName name2 with
      | .error e => .error e
      | .ok named => .ok ({ scheme := "https", host := ns2, path := "" }, named)

/-- A name validator that accepts everything (used for concrete runs where
the names involved are well-formed repository names). -/
def acceptAll : String → Bool := fun _ => true

example :
    extractRemoteURL acceptAll ⟨some ⟨""⟩, "registry-1.docker.io/library/redis"⟩ =
      .ok (⟨"https", "registry-1.docker.io", ""⟩, "library/redis") := rfl

example :
    extractRemoteURL acceptAll ⟨some ⟨""⟩, "library/redis"⟩ =
      .error .invalidNamespace := rfl

example :
    extractRemoteURL acceptAll ⟨some ⟨"h.example.com"⟩, "library/redis"⟩ =
      .ok (⟨"https", "h.example.com", ""⟩, "library/redis") := rfl

/-- The configuration fields of `proxyingRegistry` that drive name/origin
resolution: the statically configured remote URL and the namespace flag. -/
structure RegistryConfig where
  remoteURL : URL
  enableNamespaces : Bool
deriving Repr, DecidableEq

/-- The observable outcome of the resolution-and-composition part of
`proxyingRegistry.Repository` (src/registry/proxy/proxyregistry.go:135-218):
which name the embedded local repository is opened with (`localName`, also
the `repositoryName` of the pull-through blob and manifest stores), which
name and origin the remote client is opened with (`client.NewRepository(name,
remoteURL.String(), tr)`), the `name` field stored in the returned
`proxiedRepository` (what `Named()` returns), and whether `extractRemoteURL`
was consulted. -/
structure ResolvedRepo where
  localName : String
  remoteClientName : String
  remoteURL : URL
  namedResult : String
  resolverConsulted : Bool
deriving Repr, DecidableEq

/-- `proxyingRegistry.Repository(ctx, name)`, name/origin resolution and
composition (src/registry/proxy/proxyregistry.go:135-218).  The calls to
external constructors (`embedded.Repository`, `localRepo.Manifests`,
`client.NewRepository`, `remoteRepo.Manifests`) only package the resolved
names and origin and are not name-dependent failure points modelled here;
the resolution itself follows the source line by line:
`localName := name`; when namespaces are enabled, `remoteURL, name =
extractRemoteURL(ctx)` and `localName = reference.WithName(remoteURL.Host +
"/" + name.Name())`; the returned `proxiedRepository` stores `name`. -/
def Repository (validName : String → Bool) (pr : RegistryConfig) (ctx : Ctx)
    (name : String) : Except PErr ResolvedRepo :=
  if pr.enableNamespaces then
    match extractRemoteURL validName ctx with
    | .error e => .error e
    | .ok (remoteURL, name2) =>
      match withName validName (remoteURL.host ++ "/" ++ name2) with
      | .error e => .error e
      | .ok localName =>
        .ok { localName := localName
              remoteClientName := name2
              remoteURL := remoteURL
              namedResult := name2
              resolverConsulted := true }
  else
    .ok { localName := name
          remoteClientName := name
          remoteURL := pr.remoteURL
          namedResult := name
          resolverConsulted := false }

example :
    Repository acceptAll ⟨⟨"", "", ""⟩, true⟩
        ⟨some ⟨"h.example.com"⟩, "library/redis"⟩ "library/redis" =
      .ok { localName := "h.example.com/library/redis"
            remoteClientName := "library/redis"
            remoteURL := ⟨"https", "h.example.com", ""⟩
            namedResult := "library/redis"
            resolverConsulted := true } := rfl

/-!
## The proxied repository

`proxiedRepository` (src/registry/proxy/proxyregistry.go:287-311) is a plain
record of the three pre-built stores and the name; its accessor methods
return the stored fields.  The store handles are opaque to this layer, so
the record is parameterised by their types.
-/

/-- A manifest-service option as passed to `Manifests`; opaque here
(`storage.SkipLayerVerification()` and friends). -/
structure ManifestServiceOption where
  tagName : String
deriving Repr, DecidableEq

/-- `proxiedRepository` (src/registry/proxy/proxyregistry.go:290-295). -/
structure ProxiedRepository (BlobT ManT TagT : Type) where
  blobStore : BlobT
  manifests : ManT
  name : String
  tags : TagT

/-- `proxiedRepository.Manifests(ctx, options...)`
(src/registry/proxy/proxyregistry.go:297-299): `return pr.manifests, nil` —
the options argument is ignored and the error is always nil.  The `Except`
result mirrors the Go `(distribution.ManifestService, error)` pair. -/
def ProxiedRepository.Manifests (pr : ProxiedRepository BlobT ManT TagT)
    (_ctx : Ctx) (_options : List ManifestServiceOption) : Except PErr ManT :=
  .ok pr.manifests

/-- `proxiedRepository.Blobs(ctx)` (src/registry/proxy/proxyregistry.go:301-303). -/
def ProxiedRepository.Blobs (pr : ProxiedRepository BlobT ManT TagT)
    (_ctx : Ctx) : BlobT :=
  pr.blobStore

/-- `proxiedRepository.Named()` (src/registry/proxy/proxyregistry.go:305-307). -/
def ProxiedRepository.Named (pr : ProxiedRepository BlobT ManT TagT) : String :=
  pr.name

/-- `proxiedRepository.Tags(ctx)` (src/registry/proxy/proxyregistry.go:309-311). -/
def ProxiedRepository.Tags (pr : ProxiedRepository BlobT ManT TagT)
    (_ctx : Ctx) : TagT :=
  pr.tags

/-!
## The eviction bridge

`NewRegistryPullThroughCache` (src/registry/proxy/proxyregistry.go:35-125)
registers two callbacks with the scheduler.  The external collaborators the
callbacks invoke — `registry.Repository`, `repo.Blobs(ctx).Delete`,
`v.RemoveBlob`, `repo.Manifests(ctx)` and `manifests.Delete` — are modelled
as a record of result-valued functions; alongside the result the model
returns the ordered trace of backend calls the callback performed.
-/

/-- `reference.Reference` as a sum: the canonical (repository + digest)
form, or any other form (tag references etc.), which the callbacks' type
assertion `ref.(reference.Canonical)` rejects. -/
inductive Reference where
  | canonical (repo : String) (digest : String)
  | tag (repo : String) (tg : String)
deriving Repr, DecidableEq

/-- An error reported by an external store operation.  `notFound` is the
backend's "not found" result (e.g. `distribution.ErrBlobUnknown` from a
delete of an absent digest); `other` is any other failure. -/
inductive StoreErr where
  | notFound
  | other (msg : String)
deriving Repr, DecidableEq

/-- The error an eviction callback returns to the scheduler: either the
`fmt.Errorf("unexpected reference type : %T", ref)` of the type check, or
an error propagated from the backend. -/
inductive CallbackErr where
  | unexpectedReferenceType
  | store (e : StoreErr)
deriving Repr, DecidableEq

/-- One backend call performed by an eviction callback, for the call trace. -/
inductive EvictStep where
  | repoLookup (repo : String)
  | blobDelete (repo digest : String)
  | vacuumRemove (digest : String)
  | manifestsAccess (repo : String)
  | manifestDelete (repo digest : String)
deriving Repr, DecidableEq

/-- The behaviour of the external collaborators of the eviction callbacks:
each operation either succeeds (`none`) or fails with a `StoreErr`.
`repoLookup` is `registry.Repository(ctx, r)`, `blobDelete` is
`repo.Blobs(ctx).Delete(ctx, r.Digest())`, `vacuumRemove` is
`v.RemoveBlob(r.Digest().String())`, `manifestsAccess` is
`repo.Manifests(ctx)` and `manifestDelete` is
`manifests.Delete(ctx, r.Digest())`. -/
structure Backend where
  repoLookup : String → Option StoreErr
  blobDelete : String → String → Option StoreErr
  vacuumRemove : String → Option StoreErr
  manifestsAccess : String → Option StoreErr
  manifestDelete : String → String → Option StoreErr

/-- The `OnBlobExpire` callback (src/registry/proxy/proxyregistry.go:43-69):
reject non-canonical references; look up the owning repository; delete the
blob by digest through the repository's blob accessor; then vacuum-remove
the digest.  Every error is returned to the scheduler as-is.  The result is
paired with the ordered trace of backend calls. -/
def onBlobExpire (b : Backend) (ref : Reference) :
    Option CallbackErr × List EvictStep :=
  match ref with
  | .tag _ _ => (some .unexpectedReferenceType, [])
  | .canonical repo digest =>
    match b.repoLookup repo with
    | some e => (some (.store e), [.repoLookup repo])
    | none =>
      match b.blobDelete repo digest with
      | some e => (some (.store e), [.repoLookup repo, .blobDelete repo digest])
      | none =>
        match b.vacuumRemove digest with
        | some e =>
          (some (.store e),
           [.repoLookup repo, .blobDelete repo digest, .vacuumRemove digest])
        | none =>
          (none,
           [.repoLookup repo, .blobDelete repo digest, .vacuumRemove digest])

/-- The `OnManifestExpire` callback (src/registry/proxy/proxyregistry.go:71-92):
reject non-canonical references; look up the owning repository; obtain its
manifest accessor (`repo.Manifests(ctx)` can itself fail); delete the
manifest by digest.  No vacuum step.  Every error is returned as-is. -/
def onManifestExpire (b : Backend) (ref : Reference) :
    Option CallbackErr × List EvictStep :=
  match ref with
  | .tag _ _ => (some .unexpectedReferenceType, [])
  | .canonical repo digest =>
    match b.repoLookup repo with
    | some e => (some (.store e), [.repoLookup repo])
    | none =>
      match b.manifestsAccess repo with
      | some e => (some (.store e), [.repoLookup repo, .manifestsAccess repo])
      | none =>
        match b.manifestDelete repo digest with
        | some e =>
          (some (.store e),
           [.repoLookup repo, .manifestsAccess repo, .manifestDelete repo digest])
        | none =>
          (none,
           [.repoLookup repo, .manifestsAccess repo, .manifestDelete repo digest])

/-- A backend on which every operation succeeds. -/
def backendAllOk : Backend :=
  { repoLookup := fun _ => none
    blobDelete := fun _ _ => none
    vacuumRemove := fun _ => none
    manifestsAccess := fun _ => none
    manifestDelete := fun _ _ => none }

/-- A backend whose deletes report not-found (the digest is already
absent); everything else succeeds. -/
def backendDeleteNotFound : Backend :=
  { backendAllOk with
    blobDelete := fun _ _ => some .notFound
    manifestDelete := fun _ _ => some .notFound }

example :
    onBlobExpire backendAllOk (.canonical "a/b" "sha256:01") =
      (none, [.repoLookup "a/b", .blobDelete "a/b" "sha256:01",
              .vacuumRemove "sha256:01"]) := rfl

example :
    onBlobExpire backendDeleteNotFound (.canonical "a/b" "sha256:01") =
      (some (.store .notFound),
       [.repoLookup "a/b", .blobDelete "a/b" "sha256:01"]) := rfl

/-!
## The auth challenger

`remoteAuthChallenger` (src/registry/proxy/proxyregistry.go:235-285).  The
challenge manager (`challenge.NewSimpleManager()`) is modelled as a map
from URLs to challenge lists; `GetChallenges` is lookup, and the `ping`
probe — code of this repository that is not under `src/` — is modelled
from the spec as a function from the probed URL to either a transport
error or the list of challenges the upstream's `/v2/` response advertises,
which `ping` stores in the manager for that URL. -/

/-- `remoteAuthChallenger` state: static remote URL, the namespace flag and
the challenge manager's content (`cm`), as a map from URLs to the cached
challenge list for that endpoint. -/
structure Challenger where
  remoteURL : URL
  enableNamespaces : Bool
  cm : URL → List String

/-- Set a URL's path, as in `remoteURL.Path = "/v2/"`
(src/registry/proxy/proxyregistry.go:266). -/
def withV2 (u : URL) : URL :=
  { u with path := "/v2/" }

/-- The effective remote origin of a `tryEstablishChallenges` call
(src/registry/proxy/proxyregistry.go:256-263): the static `r.remoteURL`, or
the URL re-derived by `extractRemoteURL(ctx)` when namespaces are enabled. -/
def effectiveOrigin (validName : String → Bool) (r : Challenger) (ctx : Ctx) :
    Except PErr URL :=
  if r.enableNamespaces then
    match extractRemoteURL validName ctx with
    | .error e => .error e
    | .ok (u, _) => .ok u
  else
    .ok r.remoteURL

/-- `remoteAuthChallenger.tryEstablishChallenges(ctx)`
(src/registry/proxy/proxyregistry.go:252-285): resolve the effective
origin, set its path to `/v2/`, ask the challenge manager for cached
challenges; if any exist return immediately; otherwise `ping` the endpoint
(modelled from the spec: on success the advertised challenges are stored
in the manager for that URL) and propagate its transport error unchanged.
The result carries the updated challenger state and the number of network
probes performed by the call (0 or 1); the mutex around the body serialises
calls, so sequential-call behaviour is the full behaviour. -/
def tryEstablishChallenges (validName : String → Bool)
    (probe : URL → Except String (List String))
    (r : Challenger) (ctx : Ctx) : Except PErr (Challenger × Nat) :=
  match effectiveOrigin validName r ctx with
  | .error e => .error e
  | .ok u0 =>
    if (r.cm (withV2 u0)).length > 0 then
      .ok (r, 0)
    else
      match probe (withV2 u0) with
      | .error msg => .error (.transport msg)
      | .ok newChallenges =>
        .ok ({ r with
               cm := fun v => if v = withV2 u0 then newChallenges else r.cm v },
             1)

/-- A concrete single-origin challenger with an empty challenge cache. -/
def emptyChallenger : Challenger :=
  { remoteURL := ⟨"https", "registry.example.com", ""⟩
    enableNamespaces := false
    cm := fun _ => [] }

/-- A concrete probe whose response advertises one bearer challenge. -/
def bearerProbe : URL → Except String (List String) :=
  fun _ => .ok ["bearer"]

/-- `emptyChallenger` after one successful `bearerProbe` probe: the bearer
challenge is cached for the origin's `/v2/` endpoint. -/
def probedChallenger : Challenger :=
  { remoteURL := ⟨"https", "registry.example.com", ""⟩
    enableNamespaces := false
    cm := fun v =>
      if v = ⟨"https", "registry.example.com", "/v2/"⟩ then ["bearer"] else [] }

/-!
## Theorems
-/

/-- Auxiliary: on every successful resolution the returned origin's scheme
is `https` (src/registry/proxy/proxyregistry.go:339-342). -/
theorem extract_scheme_https (validName : String → Bool) (ctx : Ctx)
    (u : URL) (n : String)
    (h : extractRemoteURL validName ctx = .ok (u, n)) : u.scheme = "https" := by
  unfold extractRemoteURL at h
  match hr : ctx.request with
  | none => rw [hr] at h; exact absurd h (by simp)
  | some r =>
    rw [hr] at h
    simp only [withName] at h
    split at h
    · exact absurd h (by simp)
    · split at h
      · exact absurd h (by simp)
      · injection h with h'
        injection h' with h1 h2
        rw [← h1]

/-- **C1**: in namespace mode with no `ns` query parameter, the resolver
splits the repository name on its first `/`; if the split succeeds and the
first segment contains a `.` at index ≥ 1 (and the remainder parses as a
repository name), the resolved origin host is the first segment and the
remote repository name is the remainder; if the split fails or the period
check fails, resolution fails with the invalid-namespace error. -/
theorem no_ns_fallback_split (validName : String → Bool)
    (name seg rest : String) (found : Bool)
    (hcut : stringCut name '/' = (seg, rest, found)) :
    (found = true → 1 ≤ indexRune seg '.' → validName rest = true →
      extractRemoteURL validName ⟨some ⟨""⟩, name⟩ =
        .ok (⟨"https", seg, ""⟩, rest)) ∧
    ((found = false ∨ indexRune seg '.' < 1) →
      extractRemoteURL validName ⟨some ⟨""⟩, name⟩ =
        .error .invalidNamespace) := by
  constructor
  · intro hf hidx hv
    simp only [extractRemoteURL, hcut, withName]
    simp [hf, hv, Int.not_lt.mpr hidx]
  · intro hbad
    simp only [extractRemoteURL, hcut, withName]
    rcases hbad with hb | hb
    · simp [hb]
    · simp [hb]

/-- **C1 witness**: at `registry-1.docker.io/library/redis` the split
yields host `registry-1.docker.io` and name `library/redis`; at
`library/redis` (no period in the first segment) it fails. -/
theorem no_ns_fallback_split_witness :
    extractRemoteURL acceptAll ⟨some ⟨""⟩, "registry-1.docker.io/library/redis"⟩ =
      .ok (⟨"https", "registry-1.docker.io", ""⟩, "library/redis") ∧
    extractRemoteURL acceptAll ⟨some ⟨""⟩, "library/redis"⟩ =
      .error .invalidNamespace :=
  ⟨(no_ns_fallback_split acceptAll "registry-1.docker.io/library/redis"
      "registry-1.docker.io" "library/redis" true rfl).1 rfl (by decide) rfl,
   (no_ns_fallback_split acceptAll "library/redis"
      "library" "redis" true rfl).2 (Or.inr (by decide))⟩

/-- **C10**: with a non-empty `ns` query parameter the value is used
verbatim as the upstream host — no period check is applied — and the
repository name is taken unchanged from the request context, so resolution
succeeds whenever that name parses. -/
theorem ns_param_verbatim (validName : String → Bool) (nsv name : String)
    (hns : nsv ≠ "") (hvalid : validName name = true) :
    extractRemoteURL validName ⟨some ⟨nsv⟩, name⟩ =
      .ok (⟨"https", nsv, ""⟩, name) := by
  simp only [extractRemoteURL, withName]
  simp [hns, hvalid]

/-- **C10 witness**: `ns=myhost` contains no period yet resolution
succeeds with host `myhost`. -/
theorem ns_param_verbatim_witness :
    extractRemoteURL acceptAll ⟨some ⟨"myhost"⟩, "library/redis"⟩ =
      .ok (⟨"https", "myhost", ""⟩, "library/redis") :=
  ns_param_verbatim acceptAll "myhost" "library/redis" (by decide) rfl

/-- **C7**: with namespace mode disabled, `Repository` resolves to the
statically configured remote URL and the requested name, for every request
context (in particular whatever the query parameters are), and the origin
resolver is never consulted. -/
theorem repository_single_origin (validName : String → Bool)
    (pr : RegistryConfig) (ctx : Ctx) (name : String)
    (h : pr.enableNamespaces = false) :
    Repository validName pr ctx name =
      .ok { localName := name
            remoteClientName := name
            remoteURL := pr.remoteURL
            namedResult := name
            resolverConsulted := false } := by
  simp [Repository, h]

/-- **C7 witness**: a namespace-disabled registry resolves `library/redis`
to the static origin even though the request carries an `ns` parameter. -/
theorem repository_single_origin_witness :
    Repository acceptAll ⟨⟨"https", "static.example.com", ""⟩, false⟩
        ⟨some ⟨"h.example.com"⟩, "library/redis"⟩ "library/redis" =
      .ok { localName := "library/redis"
            remoteClientName := "library/redis"
            remoteURL := ⟨"https", "static.example.com", ""⟩
            namedResult := "library/redis"
            resolverConsulted := false } :=
  repository_single_origin acceptAll ⟨⟨"https", "static.example.com", ""⟩, false⟩
    ⟨some ⟨"h.example.com"⟩, "library/redis"⟩ "library/redis" rfl

/-- **C9**: `Manifests` returns the store built at construction time with
a nil error for every context and option list — the options are never
applied — and `Blobs` and `Tags` likewise return their pre-built stores. -/
theorem proxied_accessors_fixed (BlobT ManT TagT : Type)
    (pr : ProxiedRepository BlobT ManT TagT) (ctx : Ctx)
    (options : List ManifestServiceOption) :
    pr.Manifests ctx options = .ok pr.manifests ∧
    pr.Blobs ctx = pr.blobStore ∧
    pr.Tags ctx = pr.tags :=
  ⟨rfl, rfl, rfl⟩

/-- **C6**: both eviction callbacks reject a non-canonical reference with
the unexpected-reference-type error and perform no backend call at all
(the trace is empty: no repository lookup, no deletion, no vacuum). -/
theorem nonCanonical_rejected (b : Backend) (repo tg : String) :
    onBlobExpire b (.tag repo tg) = (some .unexpectedReferenceType, []) ∧
    onManifestExpire b (.tag repo tg) = (some .unexpectedReferenceType, []) :=
  ⟨rfl, rfl⟩

/-- **C5**: the blob-expire callback deletes through the repository's blob
accessor first and vacuums second: it succeeds exactly when the lookup and
both deletions succeed, in which case the trace is lookup, then blob
delete, then vacuum; and when the per-repository deletion fails, the
callback fails with that error and the vacuum step is never invoked. -/
theorem blobExpire_delete_then_vacuum (b : Backend) (repo digest : String) :
    ((onBlobExpire b (.canonical repo digest)).1 = none →
      b.blobDelete repo digest = none ∧ b.vacuumRemove digest = none ∧
      (onBlobExpire b (.canonical repo digest)).2 =
        [.repoLookup repo, .blobDelete repo digest, .vacuumRemove digest]) ∧
    (∀ e, b.repoLookup repo = none → b.blobDelete repo digest = some e →
      onBlobExpire b (.canonical repo digest) =
        (some (.store e), [.repoLookup repo, .blobDelete repo digest])) := by
  constructor
  · intro hok
    simp only [onBlobExpire] at hok ⊢
    cases hrepo : b.repoLookup repo with
    | some e => simp [hrepo] at hok
    | none =>
      cases hdel : b.blobDelete repo digest with
      | some e => simp [hrepo, hdel] at hok
      | none =>
        cases hvac : b.vacuumRemove digest with
        | some e => simp [hrepo, hdel, hvac] at hok
        | none => simp [hrepo, hdel, hvac]
  · intro e hrepo hdel
    simp [onBlobExpire, hrepo, hdel]

/-- **C5 witness**: on a backend where everything succeeds, the callback
succeeds and its trace is lookup, blob delete, vacuum in that order; on a
backend whose blob delete fails, the vacuum step is absent. -/
theorem blobExpire_delete_then_vacuum_witness :
    (onBlobExpire backendAllOk (.canonical "a/b" "sha256:01")).2 =
      [.repoLookup "a/b", .blobDelete "a/b" "sha256:01",
       .vacuumRemove "sha256:01"] ∧
    onBlobExpire backendDeleteNotFound (.canonical "a/b" "sha256:01") =
      (some (.store .notFound),
       [.repoLookup "a/b", .blobDelete "a/b" "sha256:01"]) :=
  ⟨((blobExpire_delete_then_vacuum backendAllOk "a/b" "sha256:01").1 rfl).2.2,
   (blobExpire_delete_then_vacuum backendDeleteNotFound "a/b" "sha256:01").2
     .notFound rfl rfl⟩

/-- **C2 counterexample**: on a backend whose delete reports not-found,
both eviction callbacks return that error to the scheduler — the
not-found result is *not* swallowed as success. -/
theorem notFound_not_swallowed_cex :
    (onBlobExpire backendDeleteNotFound (.canonical "a/b" "sha256:01")).1 =
      some (.store .notFound) ∧
    (onManifestExpire backendDeleteNotFound (.canonical "a/b" "sha256:01")).1 =
      some (.store .notFound) :=
  ⟨rfl, rfl⟩

/-- **C2 amended**: every backend error from a delete — the not-found
result included — aborts the eviction callback and is propagated to the
scheduler unchanged; no error is treated as success. -/
theorem delete_error_propagated (b : Backend) (repo digest : String)
    (e : StoreErr) (hrepo : b.repoLookup repo = none) :
    (b.blobDelete repo digest = some e →
      (onBlobExpire b (.canonical repo digest)).1 = some (.store e)) ∧
    (b.manifestsAccess repo = none → b.manifestDelete repo digest = some e →
      (onManifestExpire b (.canonical repo digest)).1 = some (.store e)) := by
  constructor
  · intro hdel
    simp [onBlobExpire, hrepo, hdel]
  · intro hacc hdel
    simp [onManifestExpire, hrepo, hacc, hdel]

/-- **C2 amended witness**: the not-found delete error surfaces from both
callbacks at a concrete reference. -/
theorem delete_error_propagated_witness :
    (onBlobExpire backendDeleteNotFound (.canonical "c/d" "sha256:02")).1 =
      some (.store .notFound) ∧
    (onManifestExpire backendDeleteNotFound (.canonical "c/d" "sha256:02")).1 =
      some (.store .notFound) :=
  ⟨(delete_error_propagated backendDeleteNotFound "c/d" "sha256:02"
      .notFound rfl).1 rfl,
   (delete_error_propagated backendDeleteNotFound "c/d" "sha256:02"
      .notFound rfl).2 rfl rfl⟩

/-- Auxiliary: a successful `reference.WithName` returns its input
unchanged. -/
theorem withName_ok (validName : String → Bool) (s t : String)
    (h : withName validName s = .ok t) : t = s := by
  simp only [withName] at h
  split at h
  · injection h with h'
    exact h'.symm
  · exact absurd h (by simp)

/-- **C3 counterexample**: in namespace mode with `ns=h.example.com` and
request name `library/redis`, the returned repository's `Named()` is
`library/redis` while the resolved local name is
`h.example.com/library/redis` — `Named()` does not return the local name. -/
theorem named_not_local_cex :
    ¬ (∀ r : ResolvedRepo,
        Repository acceptAll ⟨⟨"", "", ""⟩, true⟩
            ⟨some ⟨"h.example.com"⟩, "library/redis"⟩ "library/redis" =
          .ok r →
        r.namedResult = r.localName) := by
  intro h
  have hx := h
    { localName := "h.example.com/library/redis"
      remoteClientName := "library/redis"
      remoteURL := ⟨"https", "h.example.com", ""⟩
      namedResult := "library/redis"
      resolverConsulted := true } rfl
  exact absurd hx (by decide)

/-- **C3 amended**: `Named()` on the returned repository is the resolved
remote repository name (the same name the remote client is opened with):
the requested name in single-origin mode, and in namespace mode the remote
name produced by the origin resolver — not the composite local name. -/
theorem named_returns_remote_name (validName : String → Bool)
    (pr : RegistryConfig) (ctx : Ctx) (name : String) (r : ResolvedRepo)
    (h : Repository validName pr ctx name = .ok r) :
    r.namedResult = r.remoteClientName ∧
    (pr.enableNamespaces = false → r.namedResult = name) ∧
    (pr.enableNamespaces = true →
      ∃ u rest, extractRemoteURL validName ctx = .ok (u, rest) ∧
        r.namedResult = rest) := by
  cases hns : pr.enableNamespaces with
  | false =>
    simp only [Repository, hns] at h
    simp only [Bool.false_eq_true, if_false] at h
    injection h with h'
    subst h'
    refine ⟨rfl, fun _ => rfl, fun ht => absurd ht (by simp)⟩
  | true =>
    simp only [Repository, hns, if_true] at h
    split at h
    · exact absurd h (by simp)
    · rename_i u rest heq
      split at h
      · exact absurd h (by simp)
      · rename_i localName heq2
        injection h with h'
        subst h'
        exact ⟨rfl, fun hf => absurd hf (by simp), fun _ => ⟨u, rest, heq, rfl⟩⟩

/-- **C3 amended witness**: at `ns=h.example.com`, name `library/redis`,
`Named()` equals the remote client name `library/redis`. -/
theorem named_returns_remote_name_witness :
    ({ localName := "h.example.com/library/redis"
       remoteClientName := "library/redis"
       remoteURL := ⟨"https", "h.example.com", ""⟩
       namedResult := "library/redis"
       resolverConsulted := true } : ResolvedRepo).namedResult =
      ({ localName := "h.example.com/library/redis"
         remoteClientName := "library/redis"
         remoteURL := ⟨"https", "h.example.com", ""⟩
         namedResult := "library/redis"
         resolverConsulted := true } : ResolvedRepo).remoteClientName :=
  (named_returns_remote_name acceptAll ⟨⟨"", "", ""⟩, true⟩
    ⟨some ⟨"h.example.com"⟩, "library/redis"⟩ "library/redis" _ rfl).1

/-- **C8 counterexample**: in namespace mode with no `ns` parameter and
request name `registry-1.docker.io/library/redis`, the remote client is
opened for `library/redis`, not for the original request name. -/
theorem remote_client_original_name_cex :
    ¬ (∀ r : ResolvedRepo,
        Repository acceptAll ⟨⟨"", "", ""⟩, true⟩
            ⟨some ⟨""⟩, "registry-1.docker.io/library/redis"⟩
            "registry-1.docker.io/library/redis" = .ok r →
        r.remoteClientName = "registry-1.docker.io/library/redis") := by
  intro h
  have hx := h
    { localName := "registry-1.docker.io/library/redis"
      remoteClientName := "library/redis"
      remoteURL := ⟨"https", "registry-1.docker.io", ""⟩
      namedResult := "library/redis"
      resolverConsulted := true } rfl
  exact absurd hx (by decide)

/-- **C8 amended**: in namespace mode every successful `Repository` call
opens the local handle for the composite `remoteHost/remoteRepositoryName`,
resolves an origin whose scheme is always `https`, and opens the remote
client for the remote repository name produced by the origin resolver (the
request name itself when `ns` is given, the name stripped of its leading
domain segment on the fallback path) — not for the local composite name. -/
theorem repository_namespace_resolution (validName : String → Bool)
    (pr : RegistryConfig) (ctx : Ctx) (name : String) (r : ResolvedRepo)
    (hns : pr.enableNamespaces = true)
    (h : Repository validName pr ctx name = .ok r) :
    ∃ u rest, extractRemoteURL validName ctx = .ok (u, rest) ∧
      r.remoteURL = u ∧ u.scheme = "https" ∧
      r.localName = u.host ++ "/" ++ rest ∧
      r.remoteClientName = rest := by
  simp only [Repository, hns, if_true] at h
  split at h
  · exact absurd h (by simp)
  · rename_i u rest heq
    split at h
    · exact absurd h (by simp)
    · rename_i localName heq2
      injection h with h'
      subst h'
      exact ⟨u, rest, heq, rfl, extract_scheme_https validName ctx u rest heq,
             withName_ok validName _ _ heq2, rfl⟩

/-- **C8 amended witness**: at `ns=h.example.com`, name `library/redis`,
the local handle name is the composite `h.example.com/library/redis`, the
origin is `https://h.example.com` and the remote client name is
`library/redis`. -/
theorem repository_namespace_resolution_witness :
    ∃ u rest,
      extractRemoteURL acceptAll ⟨some ⟨"h.example.com"⟩, "library/redis"⟩ =
        .ok (u, rest) ∧
      ({ localName := "h.example.com/library/redis"
         remoteClientName := "library/redis"
         remoteURL := ⟨"https", "h.example.com", ""⟩
         namedResult := "library/redis"
         resolverConsulted := true } : ResolvedRepo).remoteURL = u ∧
      u.scheme = "https" ∧
      ({ localName := "h.example.com/library/redis"
         remoteClientName := "library/redis"
         remoteURL := ⟨"https", "h.example.com", ""⟩
         namedResult := "library/redis"
         resolverConsulted := true } : ResolvedRepo).localName =
        u.host ++ "/" ++ rest ∧
      ({ localName := "h.example.com/library/redis"
         remoteClientName := "library/redis"
         remoteURL := ⟨"https", "h.example.com", ""⟩
         namedResult := "library/redis"
         resolverConsulted := true } : ResolvedRepo).remoteClientName = rest :=
  repository_namespace_resolution acceptAll ⟨⟨"", "", ""⟩, true⟩
    ⟨some ⟨"h.example.com"⟩, "library/redis"⟩ "library/redis" _ rfl rfl

/-- **C4**: once the challenge manager holds a challenge for the effective
origin's `/v2/` URL, `tryEstablishChallenges` returns success immediately
with no probe and the state unchanged; consequently, across two sequential
calls for the same origin whose first call succeeds leaving a cached
challenge, the second call probes zero times, and when the cache started
empty the first call probed exactly once — one probe in total. -/
theorem tryEstablish_single_probe (validName : String → Bool)
    (probe : URL → Except String (List String)) (r : Challenger) (ctx : Ctx)
    (u : URL) (hu : effectiveOrigin validName r ctx = .ok u) :
    (r.cm (withV2 u) ≠ [] →
      tryEstablishChallenges validName probe r ctx = .ok (r, 0)) ∧
    (∀ r' k, tryEstablishChallenges validName probe r ctx = .ok (r', k) →
      r'.cm (withV2 u) ≠ [] →
      tryEstablishChallenges validName probe r' ctx = .ok (r', 0) ∧
      k ≤ 1 ∧ (r.cm (withV2 u) = [] → k = 1)) := by
  have hmain : ∀ s : Challenger, s.remoteURL = r.remoteURL →
      s.enableNamespaces = r.enableNamespaces → s.cm (withV2 u) ≠ [] →
      tryEstablishChallenges validName probe s ctx = .ok (s, 0) := by
    intro s h1 h2 hne
    have hu' : effectiveOrigin validName s ctx = .ok u := by
      unfold effectiveOrigin at hu ⊢
      rw [h1, h2]
      exact hu
    unfold tryEstablishChallenges
    rw [hu']
    exact if_pos (List.length_pos.mpr hne)
  refine ⟨hmain r rfl rfl, ?_⟩
  intro r' k hcall hne'
  unfold tryEstablishChallenges at hcall
  rw [hu] at hcall
  have hcall' :
      (if (r.cm (withV2 u)).length > 0 then
        (Except.ok (r, 0) : Except PErr (Challenger × Nat))
      else
        match probe (withV2 u) with
        | .error msg => .error (.transport msg)
        | .ok newChallenges =>
          .ok ({ r with
                 cm := fun v => if v = withV2 u then newChallenges else r.cm v },
               1)) = .ok (r', k) := hcall
  by_cases hc : (r.cm (withV2 u)).length > 0
  · rw [if_pos hc] at hcall'
    injection hcall' with h'
    injection h' with hr hk
    subst hr
    subst hk
    exact ⟨hmain r rfl rfl hne', Nat.zero_le 1,
           fun h0 => absurd hc (by simp [h0])⟩
  · rw [if_neg hc] at hcall'
    cases hp : probe (withV2 u) with
    | error m =>
      rw [hp] at hcall'
      exact absurd hcall' (by simp)
    | ok newChs =>
      rw [hp] at hcall'
      injection hcall' with h'
      injection h' with hr hk
      subst hr
      subst hk
      exact ⟨hmain _ rfl rfl hne', Nat.le_refl 1, fun _ => rfl⟩

/-- **C4 witness**: on a single-origin challenger with an empty cache and a
probe advertising a bearer challenge, the first call probes once leaving
the challenge cached, and the second call returns the same state with zero
probes. -/
theorem tryEstablish_single_probe_witness :
    (tryEstablishChallenges acceptAll bearerProbe probedChallenger
        ⟨some ⟨""⟩, ""⟩ = .ok (probedChallenger, 0)) ∧
    (1 : Nat) ≤ 1 ∧
    (emptyChallenger.cm
        (withV2 ⟨"https", "registry.example.com", ""⟩) = [] → 1 = 1) :=
  (tryEstablish_single_probe acceptAll bearerProbe emptyChallenger
      ⟨some ⟨""⟩, ""⟩ ⟨"https", "registry.example.com", ""⟩ rfl).2
    probedChallenger 1 rfl (by decide)

end ProxyRegistry
